import Mathlib

/-!
Shallow embedding of `thunder_bot.py`, a daily script that checks whether
the Oklahoma City Thunder won yesterday's game and posts the result.

Network calls are modelled by passing the provider's decoded JSON payloads
(team list, game list, post response) as explicit inputs; environment
variables are modelled as `Option String` (absent = `none`).  Python
strings are Lean `String`s (sequences of unicode scalar values, so Python
slicing `s[:n]` is `take n` on the character list); Python ints are `Int`.
-/

namespace ThunderBot

/-- Constant `TEAM_ABBR = "OKC"` from the source. -/
def TEAM_ABBR : String := "OKC"

/-- Constant `TEAM_NICK = "Thunder"` from the source. -/
def TEAM_NICK : String := "Thunder"

/-- Constant `TEAM_CITY_FULL = "Oklahoma City Thunder"` from the source. -/
def TEAM_CITY_FULL : String := "Oklahoma City Thunder"

/-- A team record as returned by the stats provider's `/teams` endpoint:
`id`, `abbreviation`, `full_name` and short `name` fields. -/
structure Team where
  id : Int
  abbreviation : String
  full_name : String
  name : String
deriving DecidableEq, Repr

/-- A game record as returned by the stats provider's `/games` endpoint. -/
structure Game where
  home_team : Team
  visitor_team : Team
  home_team_score : Int
  visitor_team_score : Int
  status : String
deriving DecidableEq, Repr

/-- A calendar date (`datetime.date`): year, month (1-12), day (1-31). -/
structure PyDate where
  year : Nat
  month : Nat
  day : Nat
deriving DecidableEq, Repr

/-- An aware `datetime` value, reduced to the fields the script observes:
its calendar date and the time of day.  `now_ct` inputs of this type model
`datetime.now(ZoneInfo("America/Chicago"))`. -/
structure PyDateTime where
  date : PyDate
  seconds_of_day : Nat
deriving DecidableEq, Repr

/-- Python slicing `s[:n]`: the first `n` characters of the string. -/
def pySlice (s : String) (n : Nat) : String :=
  ⟨s.data.take n⟩

/-- Gregorian leap-year rule used by `datetime.date` validation. -/
def isLeap (y : Nat) : Bool :=
  y % 4 == 0 && (y % 100 != 0 || y % 400 == 0)

/-- Number of days in month `m` of year `y` (0 for an invalid month). -/
def daysInMonth (y m : Nat) : Nat :=
  match m with
  | 1 => 31
  | 2 => if isLeap y then 29 else 28
  | 3 => 31
  | 4 => 30
  | 5 => 31
  | 6 => 30
  | 7 => 31
  | 8 => 31
  | 9 => 30
  | 10 => 31
  | 11 => 30
  | 12 => 31
  | _ => 0

/-- Numeric value of a decimal digit character. -/
def digitVal (c : Char) : Nat := c.toNat - 48

/-- Models `datetime.date.fromisoformat` on its canonical `YYYY-MM-DD`
input form: ten characters, four digits, dash, two digits, dash, two
digits, with the month, day and year ranges validated as Python does
(year at least 1, month 1-12, day within the month).  Any other string is
rejected (`none` models the `ValueError`). -/
def fromisoformat (s : String) : Option PyDate :=
  match s.data with
  | [y1, y2, y3, y4, '-', m1, m2, '-', d1, d2] =>
    if y1.isDigit && y2.isDigit && y3.isDigit && y4.isDigit &&
       m1.isDigit && m2.isDigit && d1.isDigit && d2.isDigit then
      let y := 1000 * digitVal y1 + 100 * digitVal y2 + 10 * digitVal y3 + digitVal y4
      let m := 10 * digitVal m1 + digitVal m2
      let d := 10 * digitVal d1 + digitVal d2
      if 1 ≤ y && 1 ≤ m && m ≤ 12 && 1 ≤ d && d ≤ daysInMonth y m then
        some ⟨y, m, d⟩
      else
        none
    else
      none
  | _ => none

/-- The calendar date one day before `d` (month and year rollover). -/
def prevDay (d : PyDate) : PyDate :=
  if d.day > 1 then ⟨d.year, d.month, d.day - 1⟩
  else if d.month > 1 then ⟨d.year, d.month - 1, daysInMonth d.year (d.month - 1)⟩
  else ⟨d.year - 1, 12, 31⟩

/-- Subtracting `timedelta(days=1)` from an aware datetime: Python performs naive
wall-clock arithmetic, so the time of day is unchanged and the date moves
back exactly one calendar day. -/
def minusOneDay (t : PyDateTime) : PyDateTime :=
  ⟨prevDay t.date, t.seconds_of_day⟩

/-- Embeds `chicago_yesterday_date()`.  `force` is the `FORCE_DATE` environment
variable (`none` = unset); `now_ct` models the current
`datetime.now(ZoneInfo("America/Chicago"))`.  A truthy (non-empty)
override that parses as an ISO date is returned verbatim; otherwise the
script falls back to yesterday's date in the Chicago clock. -/
def chicago_yesterday_date (force : Option String) (now_ct : PyDateTime) : PyDate :=
  let forced : Option PyDate :=
    match force with
    | some f => if f != "" then fromisoformat f else none
    | none => none
  match forced with
  | some d => d
  | none => (minusOneDay now_ct).date

/-- Characters stripped by Python `int(str)` before parsing (ASCII
whitespace; the exotic unicode spaces Python also strips are out of
scope for the inputs this script sees). -/
def isPySpace (c : Char) : Bool :=
  c == ' ' || c == '\t' || c == '\n' || c == '\x0d' || c == '\x0b' || c == '\x0c'

/-- Leading and trailing whitespace removed. -/
def pyStrip (cs : List Char) : List Char :=
  ((cs.dropWhile isPySpace).reverse.dropWhile isPySpace).reverse

/-- Value of a non-empty all-digit character run, else `none`. -/
def digitsToNat (ds : List Char) : Option Nat :=
  if ds ≠ [] ∧ ds.all Char.isDigit then
    some (ds.foldl (fun a c => 10 * a + digitVal c) 0)
  else
    none

/-- Models Python `int(string)` on decimal strings: optional surrounding
whitespace, optional sign, then decimal digits; anything else raises
`ValueError`, modelled as `none` (underscore digit separators are out of
scope for the inputs this script sees). -/
def pyInt (s : String) : Option Int :=
  match pyStrip s.data with
  | '+' :: ds => (digitsToNat ds).map (fun n => (n : Int))
  | '-' :: ds => (digitsToNat ds).map (fun n => -(n : Int))
  | ds => (digitsToNat ds).map (fun n => (n : Int))

/-- Result of `resolve_team_id()`: either a team id together with the
flag recording whether the provider's `/teams` endpoint was queried, or a
fatal `fail(msg)` (printed message and process exit code). -/
inductive ResolveOutcome where
  | ok (team_id : Int) (provider_called : Bool)
  | fatal (msg : String) (code : Nat)
deriving DecidableEq, Repr

/-- The match test of the team scan:
`t.get("abbreviation") == TEAM_ABBR or t.get("full_name") == TEAM_CITY_FULL`. -/
def teamMatches (t : Team) : Bool :=
  t.abbreviation == TEAM_ABBR || t.full_name == TEAM_CITY_FULL

/-- The `for t in ...` scan of `resolve_team_id`: id of the first
matching team record, in provider order. -/
def scanTeams : List Team → Option Int
  | [] => none
  | t :: ts => if teamMatches t then some t.id else scanTeams ts

/-- Lines 62-67 of the source: query the provider, scan the records,
`fail` if nothing matches. -/
def resolveFromProvider (teams : List Team) : ResolveOutcome :=
  match scanTeams teams with
  | some tid => .ok tid true
  | none =>
    .fatal ("Could not resolve team_id for " ++ TEAM_CITY_FULL ++ " / " ++ TEAM_ABBR) 1

/-- Embeds `resolve_team_id()`.  `env_id` is the `TEAM_ID` environment variable;
`teams` is the decoded `data` array of the provider's `/teams` response.
A truthy override that parses as an int is returned without touching the
provider; otherwise the provider list is scanned. -/
def resolve_team_id (env_id : Option String) (teams : List Team) : ResolveOutcome :=
  match env_id with
  | some s =>
    if s != "" then
      match pyInt s with
      | some n => .ok n false
      | none => resolveFromProvider teams
    else
      resolveFromProvider teams
  | none => resolveFromProvider teams

/-- Python `str.lower()`: character-wise lowercasing (the statuses this
script compares are ASCII, where Python and `Char.toLower` agree). -/
def pyLower (s : String) : String :=
  ⟨s.data.map Char.toLower⟩

/-- The completed-game test of `fetch_game_for`:
status (lower-cased) in `("final", "final/ot", "finished")`, or a positive
combined score. -/
def gameCompleted (g : Game) : Bool :=
  (pyLower g.status == "final" || pyLower g.status == "final/ot" ||
    pyLower g.status == "finished") ||
  decide (g.home_team_score + g.visitor_team_score > 0)

/-- The `for g in data` loop of `fetch_game_for`: first record passing
`gameCompleted`, in provider order. -/
def firstCompleted : List Game → Option Game
  | [] => none
  | g :: gs => if gameCompleted g then some g else firstCompleted gs

/-- Embeds `fetch_game_for(team_id, date_obj)` after the HTTP call: selection of
one record from the decoded `data` array (`none` models Python `None`,
the "no game" sentinel).  Empty list: sentinel.  Otherwise the first
completed-looking record, falling back to `data[0]`. -/
def fetch_game_for (data : List Game) : Option Game :=
  match data with
  | [] => none
  | g0 :: _ =>
    match firstCompleted (g0 :: data.tail) with
    | some g => some g
    | none => some g0

/-- Month abbreviation `date_obj.strftime("%b")` in the C locale. -/
def monthAbbrev (m : Nat) : String :=
  match m with
  | 1 => "Jan"
  | 2 => "Feb"
  | 3 => "Mar"
  | 4 => "Apr"
  | 5 => "May"
  | 6 => "Jun"
  | 7 => "Jul"
  | 8 => "Aug"
  | 9 => "Sep"
  | 10 => "Oct"
  | 11 => "Nov"
  | 12 => "Dec"
  | _ => ""

/-- Embeds `format_tweet(game, date_obj, team_id)`: `none` for the "no game"
sentinel, otherwise the fixed-template message truncated to 280
characters.  Mirrors the source line by line. -/
def format_tweet (game : Option Game) (date_obj : PyDate) (team_id : Int) :
    Option String :=
  match game with
  | none => none
  | some game =>
    let home := game.home_team
    let away := game.visitor_team
    let home_score := game.home_team_score
    let away_score := game.visitor_team_score
    let is_home : Bool := home.id == team_id
    let team_score := if is_home then home_score else away_score
    let opp := if is_home then away else home
    let opp_score := if is_home then away_score else home_score
    let yes_no := if team_score > opp_score then "YES" else "NO"
    let month := monthAbbrev date_obj.month
    let date_str := month ++ " " ++ toString date_obj.day ++ ", " ++ toString date_obj.year
    let venue := if is_home then "vs" else "@"
    let opponent_line := venue ++ " " ++ opp.full_name
    let score_line :=
      TEAM_NICK ++ " " ++ toString team_score ++ " – " ++ toString opp_score ++
        " " ++ opp.name
    let tweet := yes_no ++ "\n\n" ++ date_str ++ "\n" ++ opponent_line ++ "\n" ++ score_line
    some (pySlice tweet 280)

/-- Truthiness of an `os.getenv` result: a string environment value is truthy exactly
when it is present and non-empty. -/
def truthy : Option String → Bool
  | none => false
  | some s => s != ""

/-- Result of `post_to_x(status_text)`: a fatal `fail(msg)` (with the flag
recording whether the posting endpoint was reached first), or a
successful post reporting the created tweet id. -/
inductive PostOutcome where
  | fatal (msg : String) (code : Nat) (network_called : Bool)
  | posted (tweet_id : Option String)
deriving DecidableEq, Repr

/-- Embeds `post_to_x(status_text)`.  The four credentials come from the
environment; `resp_status`, `resp_text` and `resp_id` model the posting
endpoint's HTTP response, consumed only if the request is made. -/
def post_to_x (api_key api_secret access_token access_secret : Option String)
    (status_text : String) (resp_status : Nat) (resp_text : String)
    (resp_id : Option String) : PostOutcome :=
  if !(truthy api_key && truthy api_secret && truthy access_token &&
       truthy access_secret) then
    .fatal "Missing one or more Twitter credentials in environment variables." 1 false
  else if resp_status ≥ 400 then
    .fatal ("Twitter post failed [" ++ toString resp_status ++ "]: " ++ resp_text) 1 true
  else
    .posted resp_id

/-- The whole environment and provider behaviour one run of `main()`
observes: environment variables, the Chicago-clock "now", the decoded
`/teams` and `/games` payloads, and the posting endpoint's response. -/
structure World where
  force_date : Option String
  now_ct : PyDateTime
  team_id_env : Option String
  teams : List Team
  games : List Game
  api_key : Option String
  api_secret : Option String
  access_token : Option String
  access_secret : Option String
  post_resp_status : Nat
  post_resp_text : String
  post_resp_id : Option String
deriving Repr

/-- Observable result of a run: process exit code and whether a request
was made to the posting endpoint. -/
structure RunResult where
  exit_code : Nat
  post_called : Bool
deriving DecidableEq, Repr

/-- Exit behaviour of `main` after `post_to_x` returns or fails. -/
def postRun : PostOutcome → RunResult
  | .fatal _ code called => ⟨code, called⟩
  | .posted _ => ⟨0, true⟩

/-- Embeds `main()`: resolve the date and team, fetch the game, format, and
either no-op (exit 0) on the "no game" sentinel or post. -/
def mainRun (w : World) : RunResult :=
  let ydate := chicago_yesterday_date w.force_date w.now_ct
  match resolve_team_id w.team_id_env w.teams with
  | .fatal _ code => ⟨code, false⟩
  | .ok team_id _ =>
    let game := fetch_game_for w.games
    match format_tweet game ydate team_id with
    | none => ⟨0, false⟩
    | some tweet =>
      postRun (post_to_x w.api_key w.api_secret w.access_token w.access_secret
        tweet w.post_resp_status w.post_resp_text w.post_resp_id)

/-! ### Concrete fixtures used by witnesses and counterexamples -/

/-- Sample opponent team. -/
def denver : Team := ⟨8, "DEN", "Denver Nuggets", "Nuggets"⟩

/-- The Thunder record (provider id 25 in the end-to-end scenario). -/
def okc : Team := ⟨25, "OKC", "Oklahoma City Thunder", "Thunder"⟩

/-- A completed home game, 120-100, as in the end-to-end scenario. -/
def finalGame : Game := ⟨okc, denver, 120, 100, "Final"⟩

/-- A game whose status is not in the completed set but whose scores are
already positive. -/
def scheduledScoredGame : Game := ⟨okc, denver, 50, 40, "scheduled"⟩

/-- An opponent whose full name is 300 characters long. -/
def longTeam : Team := ⟨26, "LLL", ⟨List.replicate 300 'a'⟩, "Long"⟩

/-- The end-to-end scenario game played against `longTeam`. -/
def longGame : Game := ⟨okc, longTeam, 120, 100, "Final"⟩

/-- The target date of the end-to-end scenario. -/
def scenarioDate : PyDate := ⟨2024, 1, 15⟩

/-- A run environment: forced date, `TEAM_ID=25`, empty game list,
all credentials present. -/
def noGameWorld : World :=
  ⟨some "2024-01-15", ⟨⟨2024, 1, 16⟩, 3600⟩, some "25", [], [],
    some "k", some "s", some "t", some "a", 201, "", some "1"⟩

/-! ### Helper lemmas -/

/-- String concatenation concatenates the character lists. -/
theorem data_append (s t : String) : (s ++ t).data = s.data ++ t.data := rfl

/-- Characters of a Python slice `s[:n]`. -/
theorem data_pySlice (s : String) (n : Nat) : (pySlice s n).data = s.data.take n := rfl

/-- A list of length at most `n` is a `isPrefixOf`-prefix of the `n`-truncation
of any of its extensions. -/
theorem isPrefixOf_append_take (p l : List Char) (n : Nat)
    (h : p.length ≤ n) : p.isPrefixOf ((p ++ l).take n) = true := by
  induction p generalizing n with
  | nil => simp [List.isPrefixOf]
  | cons a as ih =>
    cases n with
    | zero => simp at h
    | succ m =>
      simp only [List.cons_append, List.take_succ_cons, List.isPrefixOf]
      simp only [List.length_cons, Nat.succ_le_succ_iff] at h
      simp [ih _ h]

/-- The source's scan loop is `List.find?` of the completed-game test. -/
theorem firstCompleted_eq_find? (l : List Game) :
    firstCompleted l = l.find? gameCompleted := by
  induction l with
  | nil => rfl
  | cons g gs ih =>
    cases hg : gameCompleted g with
    | true => simp [firstCompleted, List.find?, hg]
    | false => simp [firstCompleted, List.find?, hg, ih]

/-- The scan loop skips a block of non-completed records. -/
theorem firstCompleted_append_none (pre rest : List Game)
    (h : ∀ g ∈ pre, gameCompleted g = false) :
    firstCompleted (pre ++ rest) = firstCompleted rest := by
  induction pre with
  | nil => rfl
  | cons g gs ih =>
    have hg : gameCompleted g = false := h g (by simp)
    simp only [List.cons_append, firstCompleted, hg, if_neg Bool.false_ne_true]
    exact ih fun g' hg' => h g' (by simp [hg'])

/-- Evaluation of `fetch_game_for` on a non-empty list: the first completed-looking
record, with `data[0]` as fallback. -/
theorem fetch_game_for_cons (g0 : Game) (gs : List Game) :
    fetch_game_for (g0 :: gs) = some ((firstCompleted (g0 :: gs)).getD g0) := by
  simp only [fetch_game_for, List.tail_cons]
  cases firstCompleted (g0 :: gs) <;> rfl

/-- If the scan finds a completed-looking record, `fetch_game_for`
returns it. -/
theorem fetch_game_for_of_firstCompleted (data : List Game) (g : Game)
    (h : firstCompleted data = some g) : fetch_game_for data = some g := by
  cases data with
  | nil => exact absurd h (by simp [firstCompleted])
  | cons g0 gs =>
    rw [fetch_game_for_cons, h]
    rfl

/-! ### Claims -/

/-- C2: for every non-empty game list, `fetch_game_for` returns the first
record (in list order) whose lower-cased status is `"final"`, `"final/ot"`
or `"finished"` or whose combined score is positive; if no record
qualifies, it returns the first record of the list. -/
theorem fetch_game_for_selects_first_completed (data : List Game) (h : data ≠ []) :
    fetch_game_for data = some ((data.find? gameCompleted).getD (data.head h)) ∧
    (∀ pre g post, data = pre ++ g :: post → gameCompleted g = true →
      (∀ g' ∈ pre, gameCompleted g' = false) → fetch_game_for data = some g) ∧
    ((∀ g ∈ data, gameCompleted g = false) → fetch_game_for data = some (data.head h)) := by
  match data, h with
  | g0 :: gs, _ =>
    refine ⟨?_, ?_, ?_⟩
    · rw [fetch_game_for_cons, firstCompleted_eq_find?, List.head_cons]
    · rintro pre g post hdata hg hpre
      rw [hdata]
      refine fetch_game_for_of_firstCompleted _ _ ?_
      rw [firstCompleted_append_none pre (g :: post) hpre]
      simp [firstCompleted, hg]
    · intro hall
      rw [fetch_game_for_cons, List.head_cons]
      have hnone : firstCompleted (g0 :: gs) = firstCompleted [] := by
        have := firstCompleted_append_none (g0 :: gs) [] hall
        simpa using this
      rw [hnone]
      rfl

/-- C2 witness: on the singleton list containing the sample final game,
`fetch_game_for` returns that game. -/
theorem fetch_game_for_selects_first_completed_witness :
    fetch_game_for [finalGame] =
      some ((List.find? gameCompleted [finalGame]).getD ([finalGame].head (by decide))) :=
  (fetch_game_for_selects_first_completed [finalGame] (by decide)).1

/-- C3 counterexample: in a two-game list whose only `"Final"`-status
record comes second, behind a record with positive scores and a status
outside the completed set, `fetch_game_for` selects the first record,
not the unique `"Final"` one. -/
theorem fetch_game_for_unique_final_not_selected :
    scheduledScoredGame.status = "scheduled" ∧ finalGame.status = "Final" ∧
    fetch_game_for [scheduledScoredGame, finalGame] = some scheduledScoredGame ∧
    fetch_game_for [scheduledScoredGame, finalGame] ≠ some finalGame := by
  refine ⟨rfl, rfl, ?_, ?_⟩ <;> decide

/-- C3 amended: in a game list where exactly one record has status
`"Final"` and every record preceding it neither has a completed-set
status (case-insensitively) nor a positive combined score,
`fetch_game_for` selects that record regardless of its position. -/
theorem fetch_game_for_selects_unique_final (pre : List Game) (g : Game)
    (post : List Game) (hg : g.status = "Final")
    (hpre : ∀ g' ∈ pre, gameCompleted g' = false) :
    fetch_game_for (pre ++ g :: post) = some g := by
  refine fetch_game_for_of_firstCompleted _ _ ?_
  rw [firstCompleted_append_none pre (g :: post) hpre]
  have hcg : gameCompleted g = true := by
    unfold gameCompleted
    rw [hg]
    rfl
  simp [firstCompleted, hcg]

/-- C3 amended witness: the `"Final"` game is selected from behind a
scoreless scheduled game. -/
theorem fetch_game_for_selects_unique_final_witness :
    fetch_game_for [⟨okc, denver, 0, 0, "sched"⟩, finalGame] = some finalGame :=
  fetch_game_for_selects_unique_final [⟨okc, denver, 0, 0, "sched"⟩] finalGame []
    rfl (by decide)

/-- The source's team scan loop is `List.find?` of the match test,
projected to the id. -/
theorem scanTeams_eq_find? (l : List Team) :
    scanTeams l = (l.find? teamMatches).map Team.id := by
  induction l with
  | nil => rfl
  | cons t ts ih =>
    cases ht : teamMatches t with
    | true => simp [scanTeams, List.find?, ht]
    | false => simp [scanTeams, List.find?, ht, ih]

/-- C5: a truthy `TEAM_ID` override that parses as an integer is returned
immediately, without querying the provider; otherwise the provider's team
list is scanned in order for the first record whose abbreviation is
`"OKC"` or whose full name is `"Oklahoma City Thunder"`, and if no record
matches the script fails with a descriptive message and exit status 1. -/
theorem resolve_team_id_spec :
    (∀ s n, pyInt s = some n → ∀ teams : List Team,
      resolve_team_id (some s) teams = .ok n false) ∧
    (∀ env_id teams, (env_id = none ∨ ∃ s, env_id = some s ∧ pyInt s = none) →
      resolve_team_id env_id teams =
        match teams.find? (fun t => t.abbreviation == "OKC" ||
            t.full_name == "Oklahoma City Thunder") with
        | some t => .ok t.id true
        | none => .fatal "Could not resolve team_id for Oklahoma City Thunder / OKC" 1) := by
  constructor
  · intro s n h teams
    have hs : (s != "") = true := by
      rcases eq_or_ne s "" with rfl | hne
      · rw [show pyInt "" = none from rfl] at h
        cases h
      · simp [hne]
    simp [resolve_team_id, hs, h]
  · intro env_id teams henv
    have hprov : resolve_team_id env_id teams = resolveFromProvider teams := by
      rcases henv with rfl | ⟨s, rfl, hs⟩
      · rfl
      · by_cases hse : s = ""
        · subst hse
          rfl
        · simp [resolve_team_id, hse, hs]
    rw [hprov]
    show resolveFromProvider teams =
      match teams.find? teamMatches with
      | some t => .ok t.id true
      | none => .fatal "Could not resolve team_id for Oklahoma City Thunder / OKC" 1
    cases hf : teams.find? teamMatches with
    | some t => simp [resolveFromProvider, scanTeams_eq_find?, hf]
    | none =>
      simp only [resolveFromProvider, scanTeams_eq_find?, hf, Option.map_none']
      rfl

/-- C5 witness: `TEAM_ID=25` is returned without the provider; with no
override, the provider record for the Thunder is found. -/
theorem resolve_team_id_spec_witness :
    resolve_team_id (some "25") [] = .ok 25 false ∧
    resolve_team_id none [denver, okc] = .ok 25 true := by
  constructor
  · exact resolve_team_id_spec.1 "25" 25 rfl []
  · have h := resolve_team_id_spec.2 none [denver, okc] (Or.inl rfl)
    simpa using h

/-- C6: a `FORCE_DATE` override that parses as a valid ISO calendar date
is returned verbatim, whatever the current Chicago wall-clock time is; a
present but malformed override (the empty string included) falls back to
the default computation, the calendar date of the Chicago now-time minus
exactly 24 hours.  Totality — the resolver never fails — holds by type:
`chicago_yesterday_date` returns a plain `PyDate`. -/
theorem chicago_yesterday_date_spec :
    (∀ s d, fromisoformat s = some d → ∀ now_ct : PyDateTime,
      chicago_yesterday_date (some s) now_ct = d) ∧
    (∀ s, fromisoformat s = none → ∀ now_ct : PyDateTime,
      chicago_yesterday_date (some s) now_ct = (minusOneDay now_ct).date) ∧
    (∀ now_ct : PyDateTime,
      chicago_yesterday_date none now_ct = (minusOneDay now_ct).date) := by
  refine ⟨?_, ?_, fun _ => rfl⟩
  · intro s d h now_ct
    have hs : (s != "") = true := by
      rcases eq_or_ne s "" with rfl | hne
      · rw [show fromisoformat "" = none from rfl] at h
        cases h
      · simp [hne]
    simp [chicago_yesterday_date, hs, h]
  · intro s h now_ct
    by_cases hse : s = ""
    · subst hse
      rfl
    · simp [chicago_yesterday_date, hse, h]

/-- C6 witness: `FORCE_DATE=2024-01-15` yields January 15, 2024 at two
different clock readings, and a malformed override falls back to the
previous Chicago calendar day. -/
theorem chicago_yesterday_date_spec_witness :
    chicago_yesterday_date (some "2024-01-15") ⟨⟨2025, 7, 1⟩, 120⟩ = ⟨2024, 1, 15⟩ ∧
    chicago_yesterday_date (some "2024-01-15") ⟨⟨1999, 3, 2⟩, 86000⟩ = ⟨2024, 1, 15⟩ ∧
    chicago_yesterday_date (some "2024-13-99") ⟨⟨2024, 3, 1⟩, 7⟩ = ⟨2024, 2, 29⟩ := by
  refine ⟨?_, ?_, ?_⟩
  · exact chicago_yesterday_date_spec.1 "2024-01-15" ⟨2024, 1, 15⟩ (by decide) _
  · exact chicago_yesterday_date_spec.1 "2024-01-15" ⟨2024, 1, 15⟩ (by decide) _
  · have h := chicago_yesterday_date_spec.2.1 "2024-13-99" (by decide) ⟨⟨2024, 3, 1⟩, 7⟩
    simpa using h

/-- C8: whatever the message text and whatever the posting endpoint would
answer, if any of the four posting credentials is missing (not truthy in
the environment), `post_to_x` fails with exit code 1 and the explicit
missing-credentials message, with no request made to the posting endpoint
(`network_called = false`). -/
theorem post_to_x_missing_credentials
    (api_key api_secret access_token access_secret : Option String)
    (status_text : String) (resp_status : Nat) (resp_text : String)
    (resp_id : Option String)
    (h : truthy api_key = false ∨ truthy api_secret = false ∨
      truthy access_token = false ∨ truthy access_secret = false) :
    post_to_x api_key api_secret access_token access_secret status_text
        resp_status resp_text resp_id =
      .fatal "Missing one or more Twitter credentials in environment variables." 1 false := by
  have hall : (truthy api_key && truthy api_secret && truthy access_token &&
      truthy access_secret) = false := by
    rcases h with h | h | h | h <;> simp [h]
  simp [post_to_x, hall]

/-- C8 witness: with three of the four credentials present, the post
fails before any network call. -/
theorem post_to_x_missing_credentials_witness :
    post_to_x (some "k") (some "s") (some "t") none "YES" 200 "ok" (some "1") =
      .fatal "Missing one or more Twitter credentials in environment variables." 1 false :=
  post_to_x_missing_credentials (some "k") (some "s") (some "t") none "YES" 200 "ok"
    (some "1") (Or.inr (Or.inr (Or.inr rfl)))

/-- C7: when the games endpoint returns zero records (and the run reaches
the fetch, i.e. team resolution succeeded), `fetch_game_for` returns the
no-game sentinel, `format_tweet` produces no message, and the run exits
with status 0 having never called the posting endpoint. -/
theorem main_no_game_noop (w : World) (h0 : w.games = [])
    (tid : Int) (pc : Bool)
    (hres : resolve_team_id w.team_id_env w.teams = .ok tid pc) :
    fetch_game_for w.games = none ∧
    format_tweet (fetch_game_for w.games)
      (chicago_yesterday_date w.force_date w.now_ct) tid = none ∧
    mainRun w = ⟨0, false⟩ := by
  refine ⟨by rw [h0]; rfl, by rw [h0]; rfl, ?_⟩
  simp [mainRun, hres, h0, fetch_game_for, format_tweet]

/-- C7 witness: the fixture world with an empty game list exits 0 without
posting. -/
theorem main_no_game_noop_witness :
    fetch_game_for noGameWorld.games = none ∧
    format_tweet (fetch_game_for noGameWorld.games)
      (chicago_yesterday_date noGameWorld.force_date noGameWorld.now_ct) 25 = none ∧
    mainRun noGameWorld = ⟨0, false⟩ :=
  main_no_game_noop noGameWorld rfl 25 false (by decide)

/-- Evaluation of `format_tweet` on a game record, with the home/away selection `let`s
of the source unfolded: the fixed template, sliced to 280 characters. -/
theorem format_tweet_eq (g : Game) (d : PyDate) (tid : Int) :
    format_tweet (some g) d tid = some (pySlice (
      (if (if g.home_team.id == tid then g.home_team_score else g.visitor_team_score) >
          (if g.home_team.id == tid then g.visitor_team_score else g.home_team_score)
       then "YES" else "NO") ++ "\n\n" ++
      (monthAbbrev d.month ++ " " ++ toString d.day ++ ", " ++ toString d.year) ++ "\n" ++
      ((if g.home_team.id == tid then "vs" else "@") ++ " " ++
        (if g.home_team.id == tid then g.visitor_team else g.home_team).full_name) ++ "\n" ++
      (TEAM_NICK ++ " " ++
        toString (if g.home_team.id == tid then g.home_team_score else g.visitor_team_score) ++
        " – " ++
        toString (if g.home_team.id == tid then g.visitor_team_score else g.home_team_score) ++
        " " ++ (if g.home_team.id == tid then g.visitor_team else g.home_team).name)) 280) :=
  rfl

/-- Characters of the literal `"YES"`. -/
theorem yes_data : "YES".data = ['Y', 'E', 'S'] := rfl

/-- Characters of the literal `"NO"`. -/
theorem no_data : "NO".data = ['N', 'O'] := rfl

/-- The string `"YES"` is a prefix of any 280-slice of a string starting `Y`, `E`, `S`. -/
theorem yes_isPrefixOf_take (r : List Char) :
    "YES".data.isPrefixOf (('Y' :: 'E' :: 'S' :: r).take 280) = true := by
  simp [yes_data]

/-- The string `"YES"` is not a prefix of any 280-slice of a string starting `N`, `O`. -/
theorem yes_not_isPrefixOf_take (r : List Char) :
    "YES".data.isPrefixOf (('N' :: 'O' :: r).take 280) = false := by
  rw [show ('N' :: 'O' :: r).take 280 = 'N' :: 'O' :: r.take 278 from rfl]
  simp [List.isPrefixOf, yes_data]

/-- The string `"NO"` is a prefix of any 280-slice of a string starting `N`, `O`. -/
theorem no_isPrefixOf_take (r : List Char) :
    "NO".data.isPrefixOf (('N' :: 'O' :: r).take 280) = true := by
  simp [no_data]

/-- Shared worker for the win/loss-prefix facts: the message begins with
`"YES"` exactly when the selected team score beats the opponent score,
and with `"NO"` otherwise, tie included. -/
theorem yes_no_prefix_aux (g : Game) (d : PyDate) (tid : Int) :
    ∃ s, format_tweet (some g) d tid = some s ∧
      (("YES".data.isPrefixOf s.data = true) ↔
        (if g.home_team.id == tid then g.home_team_score else g.visitor_team_score) >
          (if g.home_team.id == tid then g.visitor_team_score else g.home_team_score)) ∧
      (¬((if g.home_team.id == tid then g.home_team_score else g.visitor_team_score) >
          (if g.home_team.id == tid then g.visitor_team_score else g.home_team_score)) →
        "NO".data.isPrefixOf s.data = true) ∧
      ((if g.home_team.id == tid then g.home_team_score else g.visitor_team_score) =
          (if g.home_team.id == tid then g.visitor_team_score else g.home_team_score) →
        "NO".data.isPrefixOf s.data = true) := by
  rw [format_tweet_eq]
  refine ⟨_, rfl, ?_, ?_, ?_⟩
  · by_cases hw : (if g.home_team.id == tid then g.home_team_score else g.visitor_team_score) >
        (if g.home_team.id == tid then g.visitor_team_score else g.home_team_score)
    · simp only [if_pos hw, hw, iff_true, data_pySlice, data_append, List.append_assoc,
        yes_data, List.cons_append, List.nil_append]
      exact yes_isPrefixOf_take _
    · simp only [if_neg hw, hw, iff_false, data_pySlice, data_append, List.append_assoc,
        no_data, List.cons_append, List.nil_append]
      simp [yes_not_isPrefixOf_take _]
  · intro hw
    simp only [if_neg hw, data_pySlice, data_append, List.append_assoc,
      no_data, List.cons_append, List.nil_append]
    exact no_isPrefixOf_take _
  · intro he
    have hw : ¬((if g.home_team.id == tid then g.home_team_score else g.visitor_team_score) >
        (if g.home_team.id == tid then g.visitor_team_score else g.home_team_score)) := by
      rw [he]
      exact lt_irrefl _
    simp only [if_neg hw, data_pySlice, data_append, List.append_assoc,
      no_data, List.cons_append, List.nil_append]
    exact no_isPrefixOf_take _

/-- C4: for every game record, the message begins with `"YES"` exactly
when the resolved team's score is strictly greater than the opponent's,
and begins with `"NO"` otherwise — in particular on a tie. -/
theorem format_tweet_yes_iff_win (g : Game) (d : PyDate) (tid : Int) :
    ∃ s, format_tweet (some g) d tid = some s ∧
      (("YES".data.isPrefixOf s.data = true) ↔
        (if g.home_team.id == tid then g.home_team_score else g.visitor_team_score) >
          (if g.home_team.id == tid then g.visitor_team_score else g.home_team_score)) ∧
      (¬((if g.home_team.id == tid then g.home_team_score else g.visitor_team_score) >
          (if g.home_team.id == tid then g.visitor_team_score else g.home_team_score)) →
        "NO".data.isPrefixOf s.data = true) ∧
      ((if g.home_team.id == tid then g.home_team_score else g.visitor_team_score) =
          (if g.home_team.id == tid then g.visitor_team_score else g.home_team_score) →
        "NO".data.isPrefixOf s.data = true) :=
  yes_no_prefix_aux g d tid

/-- C4 witness: the win-iff property at the sample final game. -/
theorem format_tweet_yes_iff_win_witness :
    ∃ s, format_tweet (some finalGame) scenarioDate 25 = some s ∧
      (("YES".data.isPrefixOf s.data = true) ↔
        (if finalGame.home_team.id == 25 then finalGame.home_team_score
          else finalGame.visitor_team_score) >
          (if finalGame.home_team.id == 25 then finalGame.visitor_team_score
            else finalGame.home_team_score)) ∧
      (¬((if finalGame.home_team.id == 25 then finalGame.home_team_score
          else finalGame.visitor_team_score) >
          (if finalGame.home_team.id == 25 then finalGame.visitor_team_score
            else finalGame.home_team_score)) →
        "NO".data.isPrefixOf s.data = true) ∧
      ((if finalGame.home_team.id == 25 then finalGame.home_team_score
          else finalGame.visitor_team_score) =
          (if finalGame.home_team.id == 25 then finalGame.visitor_team_score
            else finalGame.home_team_score) →
        "NO".data.isPrefixOf s.data = true) :=
  format_tweet_yes_iff_win finalGame scenarioDate 25

/-- C9: every message `format_tweet` returns has at most 280 characters,
whatever the game record, target date and resolved team id. -/
theorem format_tweet_length_le (game : Option Game) (d : PyDate) (tid : Int)
    (s : String) (h : format_tweet game d tid = some s) :
    s.data.length ≤ 280 := by
  cases game with
  | none => cases h
  | some g =>
    rw [format_tweet_eq] at h
    injection h with h
    subst h
    rw [data_pySlice]
    exact List.length_take_le 280 _

/-- C9 witness: the length bound at the sample final game's message. -/
theorem format_tweet_length_le_witness :
    ("YES\n\nJan 15, 2024\nvs Denver Nuggets\nThunder 120 – 100 Nuggets").data.length ≤ 280 :=
  format_tweet_length_le (some finalGame) scenarioDate 25
    "YES\n\nJan 15, 2024\nvs Denver Nuggets\nThunder 120 – 100 Nuggets" rfl

/-- C10: whenever the home team's id differs from the resolved team id —
the resolved id may match the visitor or neither side — `format_tweet`
still returns a message, built with the visitor score as the team's
score, the home team as the opponent, and the `"@"` venue prefix. -/
theorem format_tweet_visitor_branch (g : Game) (d : PyDate) (tid : Int)
    (h : g.home_team.id ≠ tid) :
    format_tweet (some g) d tid = some (pySlice (
      (if g.visitor_team_score > g.home_team_score then "YES" else "NO") ++ "\n\n" ++
      (monthAbbrev d.month ++ " " ++ toString d.day ++ ", " ++ toString d.year) ++ "\n" ++
      ("@" ++ " " ++ g.home_team.full_name) ++ "\n" ++
      (TEAM_NICK ++ " " ++ toString g.visitor_team_score ++ " – " ++
        toString g.home_team_score ++ " " ++ g.home_team.name)) 280) := by
  have hb : (g.home_team.id == tid) = false := by simp [h]
  rw [format_tweet_eq]
  simp [hb]

/-- C10 witness: resolved id 30 matches neither side of the sample game;
the message reports the visitor as the team, against the home side. -/
theorem format_tweet_visitor_branch_witness :
    format_tweet (some finalGame) scenarioDate 30 =
      some "NO\n\nJan 15, 2024\n@ Oklahoma City Thunder\nThunder 100 – 120 Thunder" := by
  rw [format_tweet_visitor_branch finalGame scenarioDate 30 (by decide)]
  rfl

set_option maxRecDepth 4000 in
/-- C1 counterexample: with a 300-character opponent full name, the
end-to-end scenario message is cut at 280 characters, so `format_tweet`
does not return the claimed template string. -/
theorem format_tweet_template_truncated :
    format_tweet (some longGame) scenarioDate 25 ≠
      some ("YES\n\nJan 15, 2024\nvs " ++ longTeam.full_name ++
        "\nThunder 120 – 100 " ++ longTeam.name) := by
  decide

/-- C1 amended: (i) in the end-to-end scenario (target date 2024-01-15,
resolved team 25 at home, 120-100), `format_tweet` returns exactly
`"YES\n\nJan 15, 2024\nvs "` + opponent full name +
`"\nThunder 120 – 100 "` + opponent short name, provided the untruncated
message fits in 280 characters; (ii) for every game record the message
begins with `"YES"` when the team won and with `"NO"` otherwise,
unconditionally; (iii) for every game record whose rendered template fits
in 280 characters, the message is exactly the template: `"vs "` before
the opponent's full name when the resolved team is the home side, `"@ "`
when it is the visitor, and the date as abbreviated month, day, comma,
year. -/
theorem format_tweet_end_to_end :
    (∀ away : Team,
      ("YES\n\nJan 15, 2024\nvs " ++ away.full_name ++ "\nThunder 120 – 100 " ++
        away.name).data.length ≤ 280 →
      format_tweet (some ⟨okc, away, 120, 100, "Final"⟩) scenarioDate 25 =
        some ("YES\n\nJan 15, 2024\nvs " ++ away.full_name ++
          "\nThunder 120 – 100 " ++ away.name)) ∧
    (∀ (g : Game) (d : PyDate) (tid : Int), ∃ s,
      format_tweet (some g) d tid = some s ∧
      (("YES".data.isPrefixOf s.data = true) ↔
        (if g.home_team.id == tid then g.home_team_score else g.visitor_team_score) >
          (if g.home_team.id == tid then g.visitor_team_score else g.home_team_score)) ∧
      (¬((if g.home_team.id == tid then g.home_team_score else g.visitor_team_score) >
          (if g.home_team.id == tid then g.visitor_team_score else g.home_team_score)) →
        "NO".data.isPrefixOf s.data = true)) ∧
    (∀ (g : Game) (d : PyDate) (tid : Int) (t : String),
      t = (if (if g.home_team.id == tid then g.home_team_score else g.visitor_team_score) >
              (if g.home_team.id == tid then g.visitor_team_score else g.home_team_score)
           then "YES" else "NO") ++ "\n\n" ++
          (monthAbbrev d.month ++ " " ++ toString d.day ++ ", " ++ toString d.year) ++ "\n" ++
          ((if g.home_team.id == tid then "vs" else "@") ++ " " ++
            (if g.home_team.id == tid then g.visitor_team else g.home_team).full_name) ++ "\n" ++
          (TEAM_NICK ++ " " ++
            toString (if g.home_team.id == tid then g.home_team_score
              else g.visitor_team_score) ++ " – " ++
            toString (if g.home_team.id == tid then g.visitor_team_score
              else g.home_team_score) ++ " " ++
            (if g.home_team.id == tid then g.visitor_team else g.home_team).name) →
      t.data.length ≤ 280 →
      format_tweet (some g) d tid = some t) := by
  refine ⟨?_, ?_, ?_⟩
  · intro away hlen
    have hstr : ("YES" ++ "\n\n" ++
          ("Jan" ++ " " ++ toString (15 : Nat) ++ ", " ++ toString (2024 : Nat)) ++ "\n" ++
          ("vs" ++ " " ++ away.full_name) ++ "\n" ++
          ("Thunder" ++ " " ++ toString (120 : Int) ++ " – " ++ toString (100 : Int) ++
            " " ++ away.name) : String) =
        "YES\n\nJan 15, 2024\nvs " ++ away.full_name ++ "\nThunder 120 – 100 " ++ away.name :=
      String.ext (by simp only [data_append, List.append_assoc]; rfl)
    calc format_tweet (some ⟨okc, away, 120, 100, "Final"⟩) scenarioDate 25
        = some (pySlice ("YES\n\nJan 15, 2024\nvs " ++ away.full_name ++
            "\nThunder 120 – 100 " ++ away.name) 280) := by
          rw [← hstr]
          rfl
      _ = some ("YES\n\nJan 15, 2024\nvs " ++ away.full_name ++
            "\nThunder 120 – 100 " ++ away.name) :=
          congrArg some (String.ext
            (by rw [data_pySlice]; exact List.take_of_length_le hlen))
  · intro g d tid
    obtain ⟨s, h1, h2, h3, _⟩ := yes_no_prefix_aux g d tid
    exact ⟨s, h1, h2, h3⟩
  · rintro g d tid t rfl hlen
    rw [format_tweet_eq]
    exact congrArg some (String.ext
      (by rw [data_pySlice]; exact List.take_of_length_le hlen))

/-- C1 witness: the end-to-end scenario against the sample opponent
yields the exact claimed message. -/
theorem format_tweet_end_to_end_witness :
    format_tweet (some ⟨okc, denver, 120, 100, "Final"⟩) scenarioDate 25 =
      some ("YES\n\nJan 15, 2024\nvs " ++ denver.full_name ++
        "\nThunder 120 – 100 " ++ denver.name) :=
  format_tweet_end_to_end.1 denver (by decide)

end ThunderBot
